import Mathlib

/-!
Verification of the resilient mirroring subsystem of the Marinus repository:
the retrying query executor of `libs3/RemoteMongoConnector.py` and the mirror
orchestrator of `send_remote_server.py`, embedded shallowly in Lean.
-/

/- ### Retrying query executor (libs3/RemoteMongoConnector.py) -/

/-- Outcome of one invocation of the underlying pymongo collection call
(`collection.find`, `collection.find_one`, `collection.find(query).count()`,
`collection.distinct`): a normal result, a raised `AutoReconnect`
(transient disconnect), or any other raised exception. -/
inductive Attempt (α : Type) where
  | ok (r : α)
  | autoReconnect
  | otherError
deriving DecidableEq, Repr

/-- Observable outcome of one of the `perform_*` retry wrappers:
a returned result, a call to `exit(code)`, or an uncaught exception
propagating out of the wrapper. -/
inductive RetryOutcome (α : Type) where
  | ok (r : α)
  | exited (code : Nat)
  | raised
deriving DecidableEq, Repr

/-- The retry loop shared verbatim by `perform_find`, `perform_find_one`,
`perform_count` and `perform_distinct`:

    success = False
    num_tries = 0
    while not success:
        try:
            result = <collection call>
            success = True
        except AutoReconnect:
            if num_tries < 5:
                time.sleep(5)
                num_tries = num_tries + 1
            else:
                exit(1)
    return result

`attempts n` is the outcome of the collection call on the iteration where
`num_tries = n` (each failed iteration increments `num_tries` by one, and a
successful iteration leaves the loop, so the iteration count equals
`num_tries`).  `remaining` carries the loop guard: it equals
`5 - num_tries`, so the source test `num_tries < 5` is exactly
`remaining ≠ 0`.  The second component of the result is the number of
`time.sleep(5)` calls performed, which equals the final `num_tries`. -/
def retryLoop {α : Type} (attempts : Nat → Attempt α) :
    Nat → Nat → RetryOutcome α × Nat
  | num_tries, remaining =>
    match attempts num_tries with
    | Attempt.ok r => (RetryOutcome.ok r, num_tries)
    | Attempt.otherError => (RetryOutcome.raised, num_tries)
    | Attempt.autoReconnect =>
      match remaining with
      | 0 => (RetryOutcome.exited 1, num_tries)
      | r + 1 => retryLoop attempts (num_tries + 1) r

/-- Embedding of `RemoteMongoConnector.perform_find`: the retry loop around
`collection.find(query[, filter])`, entered with `num_tries = 0`. -/
def perform_find {α : Type} (attempts : Nat → Attempt α) : RetryOutcome α × Nat :=
  retryLoop attempts 0 5

/-- Embedding of `RemoteMongoConnector.perform_find_one`: the retry loop around
`collection.find_one(query[, filter])`, entered with `num_tries = 0`. -/
def perform_find_one {α : Type} (attempts : Nat → Attempt α) : RetryOutcome α × Nat :=
  retryLoop attempts 0 5

/-- Embedding of `RemoteMongoConnector.perform_count`: the retry loop around
`collection.find(query).count()`, entered with `num_tries = 0`. -/
def perform_count {α : Type} (attempts : Nat → Attempt α) : RetryOutcome α × Nat :=
  retryLoop attempts 0 5

/-- Embedding of `RemoteMongoConnector.perform_distinct`: the retry loop around
`collection.distinct(field[, query])`, entered with `num_tries = 0`. -/
def perform_distinct {α : Type} (attempts : Nat → Attempt α) : RetryOutcome α × Nat :=
  retryLoop attempts 0 5

/-- An attempt oracle that raises `AutoReconnect` on the first five
invocations and succeeds on the sixth. -/
def failFiveThenOk : Nat → Attempt Nat :=
  fun n => if n < 5 then Attempt.autoReconnect else Attempt.ok 0

/-- An attempt oracle that raises `AutoReconnect` on the first four
invocations and succeeds on the fifth, returning 7. -/
def failFourThenOk : Nat → Attempt Nat :=
  fun n => if n < 4 then Attempt.autoReconnect else Attempt.ok 7

theorem retryLoop_step {α : Type} (attempts : Nat → Attempt α)
    (n r : Nat) (h : attempts n = Attempt.autoReconnect) :
    retryLoop attempts n (r + 1) = retryLoop attempts (n + 1) r := by
  rw [retryLoop, h]

theorem retryLoop_ok {α : Type} (attempts : Nat → Attempt α)
    (n r : Nat) (v : α) (h : attempts n = Attempt.ok v) :
    retryLoop attempts n r = (RetryOutcome.ok v, n) := by
  cases r <;> rw [retryLoop, h]

theorem retryLoop_exhausted {α : Type} (attempts : Nat → Attempt α)
    (n : Nat) (h : attempts n = Attempt.autoReconnect) :
    retryLoop attempts n 0 = (RetryOutcome.exited 1, n) := by
  rw [retryLoop, h]

/-- C1 (counterexample): an oracle that raises the transient-disconnect
error on 5 consecutive attempts does NOT drive the executor into the fatal
exhausted-retry exit: the executor goes on to make a 6th attempt and, the
6th attempt succeeding, returns its result (after 5 sleeps). -/
theorem c1_counterexample :
    perform_find failFiveThenOk = (RetryOutcome.ok 0, 5)
    ∧ perform_find_one failFiveThenOk = (RetryOutcome.ok 0, 5)
    ∧ perform_count failFiveThenOk = (RetryOutcome.ok 0, 5)
    ∧ perform_distinct failFiveThenOk = (RetryOutcome.ok 0, 5)
    ∧ (perform_find failFiveThenOk).1 ≠ RetryOutcome.exited 1 := by
  have h : retryLoop failFiveThenOk 0 5 = (RetryOutcome.ok 0, 5) := by
    rw [retryLoop_step failFiveThenOk 0 4 rfl, retryLoop_step failFiveThenOk 1 3 rfl,
      retryLoop_step failFiveThenOk 2 2 rfl, retryLoop_step failFiveThenOk 3 1 rfl,
      retryLoop_step failFiveThenOk 4 0 rfl, retryLoop_ok failFiveThenOk 5 0 0 rfl]
  refine ⟨h, h, h, h, ?_⟩
  rw [perform_find, h]
  decide

/-- C1 (amended): for each of the four wrapped read operations, if the
underlying store operation raises a transient-disconnect error on 6
consecutive attempts, the executor signals the fatal exhausted-retry
condition (`exit(1)`) after 5 backoff sleeps, returning no result; and the
outcome depends only on the first 6 attempts, so no 7th attempt is made. -/
theorem c1_retry_exhaustion {α : Type} (att att2 : Nat → Attempt α)
    (hfail : ∀ n, n ≤ 5 → att n = Attempt.autoReconnect)
    (hagree : ∀ n, n ≤ 5 → att2 n = att n) :
    perform_find att = (RetryOutcome.exited 1, 5)
    ∧ perform_find_one att = (RetryOutcome.exited 1, 5)
    ∧ perform_count att = (RetryOutcome.exited 1, 5)
    ∧ perform_distinct att = (RetryOutcome.exited 1, 5)
    ∧ perform_find att2 = perform_find att := by
  have h : ∀ (b : Nat → Attempt α), (∀ n, n ≤ 5 → b n = Attempt.autoReconnect) →
      retryLoop b 0 5 = (RetryOutcome.exited 1, 5) := by
    intro b hb
    rw [retryLoop_step b 0 4 (hb 0 (by omega)), retryLoop_step b 1 3 (hb 1 (by omega)),
      retryLoop_step b 2 2 (hb 2 (by omega)), retryLoop_step b 3 1 (hb 3 (by omega)),
      retryLoop_step b 4 0 (hb 4 (by omega)), retryLoop_exhausted b 5 (hb 5 (by omega))]
  have h1 := h att hfail
  have h2 := h att2 (fun n hn => (hagree n hn).trans (hfail n hn))
  exact ⟨h1, h1, h1, h1, h2.trans h1.symm⟩

/-- C1 amended witness: six consecutive transient failures produce the
fatal exit for a concrete oracle. -/
theorem c1_retry_exhaustion_witness :
    perform_find (fun _ => (Attempt.autoReconnect : Attempt Nat)) = (RetryOutcome.exited 1, 5) :=
  (c1_retry_exhaustion (fun _ => (Attempt.autoReconnect : Attempt Nat))
    (fun _ => (Attempt.autoReconnect : Attempt Nat))
    (fun _ _ => rfl) (fun _ _ => rfl)).1

/-- C4: for each of the four wrapped read operations, if the underlying
store operation raises a transient-disconnect error on attempts 1 through 4
and succeeds on attempt 5, the executor returns the attempt-5 result
unmodified, performs exactly 4 backoff sleeps, and surfaces no error: the
outcome constructor is the same `ok` a first-attempt success produces. -/
theorem c4_retry_success {α : Type} (att : Nat → Attempt α) (v : α)
    (hfail : ∀ n, n < 4 → att n = Attempt.autoReconnect)
    (hok : att 4 = Attempt.ok v) :
    perform_find att = (RetryOutcome.ok v, 4)
    ∧ perform_find_one att = (RetryOutcome.ok v, 4)
    ∧ perform_count att = (RetryOutcome.ok v, 4)
    ∧ perform_distinct att = (RetryOutcome.ok v, 4) := by
  have h : retryLoop att 0 5 = (RetryOutcome.ok v, 4) := by
    rw [retryLoop_step att 0 4 (hfail 0 (by omega)), retryLoop_step att 1 3 (hfail 1 (by omega)),
      retryLoop_step att 2 2 (hfail 2 (by omega)), retryLoop_step att 3 1 (hfail 3 (by omega)),
      retryLoop_ok att 4 1 v hok]
  exact ⟨h, h, h, h⟩

/-- C4 witness: a concrete oracle failing on attempts 1-4 and returning 7
on attempt 5 yields result 7 with exactly 4 sleeps. -/
theorem c4_retry_success_witness :
    perform_find failFourThenOk = (RetryOutcome.ok 7, 4) :=
  (c4_retry_success failFourThenOk 7
    (fun n hn => by simp [failFourThenOk, hn]) rfl).1

/- ### Document and store model (send_remote_server.py) -/

/-- A document as read with projection `("_id", 0)`: the internal
identifier is gone.  `zone` is the string field used both as the Zone
collection's key and as the DNSRecord partition key; `payload` stands for
the remaining (opaque) fields of the document. -/
structure Doc where
  zone : String
  payload : String
deriving DecidableEq, Repr

/-- A document as stored in the primary database: the internal `_id`
(modelled as a `Nat`) plus the projected document. -/
structure StoredDoc where
  oid : Nat
  doc : Doc
deriving DecidableEq, Repr

/-- The two query shapes used by the mirroring script: the empty filter
and the zone-equality filter `("zone", z)`. -/
inductive Query where
  | all
  | byZone (z : String)
deriving DecidableEq, Repr

/-- Whether a read went through one of the connector's `perform_*` retry
wrappers or directly through the raw pymongo collection handle. -/
inductive ReadPath where
  | direct
  | viaExecutor
deriving DecidableEq, Repr

/-- One store operation issued during a mirror run, for the trace:
a read of a primary collection, or a `remove`/`insert` against a remote
collection. -/
inductive Op where
  | read (coll : String) (q : Query) (path : ReadPath)
  | remove (coll : String) (q : Query)
  | insert (coll : String) (d : Doc)
deriving DecidableEq, Repr

/-- Collection name an operation addresses. -/
def Op.coll : Op → String
  | Op.read c _ _ => c
  | Op.remove c _ => c
  | Op.insert c _ => c

/-- Is this operation a read of the primary `zones` collection? -/
def isZonesRead : Op → Bool
  | Op.read c _ _ => c == "zones"
  | _ => false

/-- Does this operation mutate (remove from or insert into) the
destination `zones` collection? -/
def mutatesZones : Op → Bool
  | Op.remove c _ => c == "zones"
  | Op.insert c _ => c == "zones"
  | _ => false

/-- Is this a read performed through a retry wrapper? -/
def isWrappedRead : Op → Bool
  | Op.read _ _ ReadPath.viaExecutor => true
  | _ => false

/-- The primary (read-side) store: the collections
`send_remote_server.py` obtains from `MongoConnector`. -/
structure PrimaryStore where
  zones : List StoredDoc
  ip_zones : List StoredDoc
  ipv6_zones : List StoredDoc
  config : List StoredDoc
  aws_ips : List StoredDoc
  azure_ips : List StoredDoc
  akamai_ips : List StoredDoc
  gcp_ips : List StoredDoc
  all_dns : List StoredDoc
deriving DecidableEq, Repr

/-- The remote (write-side) store: the same collections obtained from
`RemoteMongoConnector`.  Only projected documents are ever inserted, so
its collections hold `Doc` values. -/
structure RemoteStore where
  zones : List Doc
  ip_zones : List Doc
  ipv6_zones : List Doc
  config : List Doc
  aws_ips : List Doc
  azure_ips : List Doc
  akamai_ips : List Doc
  gcp_ips : List Doc
  all_dns : List Doc
deriving DecidableEq, Repr

/- ### The mirroring steps (send_remote_server.py) -/

/-- Loop body of `update_zones` when `update_zone_list` is true:
`for zone in zones: remote_zones_collection.insert(zone); zone_list.append(zone['zone'])`. -/
def insert_zones_loop : List Doc → RemoteStore → List Op → List String →
    RemoteStore × List Op × List String
  | [], r, t, zl => (r, t, zl)
  | d :: rest, r, t, zl =>
    insert_zones_loop rest { r with zones := r.zones ++ [d] }
      (t ++ [Op.insert "zones" d]) (zl ++ [d.zone])

/-- Loop body of `update_zones` when `update_zone_list` is false:
`for zone in zones: zone_list.append(zone['zone'])`. -/
def zone_list_loop : List Doc → List String → List String
  | [], zl => zl
  | d :: rest, zl => zone_list_loop rest (zl ++ [d.zone])

/-- Embedding of `update_zones(logger, mongo_connector, rm_connector, update_zone_list)`:
reads `zones_collection.find(all, no id)` from the primary (a direct
collection-handle read); if `update_zone_list`, clears the remote zones
collection (`remove(all)`) and reinserts every document while building the
zone list; otherwise only builds the zone list.  Returns the updated
remote store, the operation trace and the produced `zone_list`. -/
def update_zones (primary : PrimaryStore) (remote : RemoteStore)
    (update_zone_list : Bool) : RemoteStore × List Op × List String :=
  let zones := primary.zones.map StoredDoc.doc
  if update_zone_list then
    insert_zones_loop zones { remote with zones := [] }
      [Op.read "zones" Query.all ReadPath.direct, Op.remove "zones" Query.all] []
  else
    (remote, [Op.read "zones" Query.all ReadPath.direct], zone_list_loop zones [])

/-- Insert loop of `update_ip_zones` over the `ip_zones` collection. -/
def insert_ip_zones_loop : List Doc → RemoteStore → List Op → RemoteStore × List Op
  | [], r, t => (r, t)
  | d :: rest, r, t =>
    insert_ip_zones_loop rest { r with ip_zones := r.ip_zones ++ [d] }
      (t ++ [Op.insert "ip_zones" d])

/-- Insert loop of `update_ip_zones` over the `ipv6_zones` collection. -/
def insert_ipv6_zones_loop : List Doc → RemoteStore → List Op → RemoteStore × List Op
  | [], r, t => (r, t)
  | d :: rest, r, t =>
    insert_ipv6_zones_loop rest { r with ipv6_zones := r.ipv6_zones ++ [d] }
      (t ++ [Op.insert "ipv6_zones" d])

/-- Insert loop of `update_config`. -/
def insert_config_loop : List Doc → RemoteStore → List Op → RemoteStore × List Op
  | [], r, t => (r, t)
  | d :: rest, r, t =>
    insert_config_loop rest { r with config := r.config ++ [d] }
      (t ++ [Op.insert "config" d])

/-- Insert loop of `update_aws_cidrs`. -/
def insert_aws_loop : List Doc → RemoteStore → List Op → RemoteStore × List Op
  | [], r, t => (r, t)
  | d :: rest, r, t =>
    insert_aws_loop rest { r with aws_ips := r.aws_ips ++ [d] }
      (t ++ [Op.insert "aws_ips" d])

/-- Insert loop of `update_azure_cidrs`. -/
def insert_azure_loop : List Doc → RemoteStore → List Op → RemoteStore × List Op
  | [], r, t => (r, t)
  | d :: rest, r, t =>
    insert_azure_loop rest { r with azure_ips := r.azure_ips ++ [d] }
      (t ++ [Op.insert "azure_ips" d])

/-- Insert loop of `update_akamai_cidrs`. -/
def insert_akamai_loop : List Doc → RemoteStore → List Op → RemoteStore × List Op
  | [], r, t => (r, t)
  | d :: rest, r, t =>
    insert_akamai_loop rest { r with akamai_ips := r.akamai_ips ++ [d] }
      (t ++ [Op.insert "akamai_ips" d])

/-- Insert loop of `update_gcp_cidrs`. -/
def insert_gcp_loop : List Doc → RemoteStore → List Op → RemoteStore × List Op
  | [], r, t => (r, t)
  | d :: rest, r, t =>
    insert_gcp_loop rest { r with gcp_ips := r.gcp_ips ++ [d] }
      (t ++ [Op.insert "gcp_ips" d])

/-- Embedding of `update_ip_zones`: full replace of the remote `ip_zones` collection
from the primary one, then the same for `ipv6_zones`.  Each half reads the
primary with `find(all, no id)`, clears the destination with `remove(all)`
and reinserts every document read. -/
def update_ip_zones (primary : PrimaryStore) (remote : RemoteStore) :
    RemoteStore × List Op :=
  let ipzones := primary.ip_zones.map StoredDoc.doc
  let s1 := insert_ip_zones_loop ipzones { remote with ip_zones := [] }
    [Op.read "ip_zones" Query.all ReadPath.direct, Op.remove "ip_zones" Query.all]
  let ipv6_zones := primary.ipv6_zones.map StoredDoc.doc
  insert_ipv6_zones_loop ipv6_zones { s1.1 with ipv6_zones := [] }
    (s1.2 ++ [Op.read "ipv6_zones" Query.all ReadPath.direct, Op.remove "ipv6_zones" Query.all])

/-- Embedding of `update_config`: full replace of the remote `config` collection. -/
def update_config (primary : PrimaryStore) (remote : RemoteStore) :
    RemoteStore × List Op :=
  let configs := primary.config.map StoredDoc.doc
  insert_config_loop configs { remote with config := [] }
    [Op.read "config" Query.all ReadPath.direct, Op.remove "config" Query.all]

/-- Embedding of `update_aws_cidrs`: full replace of the remote `aws_ips` collection. -/
def update_aws_cidrs (primary : PrimaryStore) (remote : RemoteStore) :
    RemoteStore × List Op :=
  let aws_ips := primary.aws_ips.map StoredDoc.doc
  insert_aws_loop aws_ips { remote with aws_ips := [] }
    [Op.read "aws_ips" Query.all ReadPath.direct, Op.remove "aws_ips" Query.all]

/-- Embedding of `update_azure_cidrs`: full replace of the remote `azure_ips` collection. -/
def update_azure_cidrs (primary : PrimaryStore) (remote : RemoteStore) :
    RemoteStore × List Op :=
  let azure_ips := primary.azure_ips.map StoredDoc.doc
  insert_azure_loop azure_ips { remote with azure_ips := [] }
    [Op.read "azure_ips" Query.all ReadPath.direct, Op.remove "azure_ips" Query.all]

/-- Embedding of `update_akamai_cidrs`: full replace of the remote `akamai_ips` collection. -/
def update_akamai_cidrs (primary : PrimaryStore) (remote : RemoteStore) :
    RemoteStore × List Op :=
  let akamai_ips := primary.akamai_ips.map StoredDoc.doc
  insert_akamai_loop akamai_ips { remote with akamai_ips := [] }
    [Op.read "akamai_ips" Query.all ReadPath.direct, Op.remove "akamai_ips" Query.all]

/-- Embedding of `update_gcp_cidrs`: full replace of the remote `gcp_ips` collection. -/
def update_gcp_cidrs (primary : PrimaryStore) (remote : RemoteStore) :
    RemoteStore × List Op :=
  let gcp_ips := primary.gcp_ips.map StoredDoc.doc
  insert_gcp_loop gcp_ips { remote with gcp_ips := [] }
    [Op.read "gcp_ips" Query.all ReadPath.direct, Op.remove "gcp_ips" Query.all]

/-- Inner insert loop of `update_all_dns`:
`for ip_addr in all_dns: remote_all_dns_collection.insert(ip_addr)`. -/
def insert_all_dns_loop : List Doc → RemoteStore → List Op → RemoteStore × List Op
  | [], r, t => (r, t)
  | d :: rest, r, t =>
    insert_all_dns_loop rest { r with all_dns := r.all_dns ++ [d] }
      (t ++ [Op.insert "all_dns" d])

/-- Body of one iteration of `update_all_dns` for zone `z`: read the
primary documents with `zone == z` (projection drops `_id`; the
`batch_size(50)` cursor hint does not affect the documents read), delete
the destination documents with `zone == z`, and insert every document
read.  The pymongo cursor created by `find` is lazy, so the actual read
happens at iteration, after the `remove`; the trace records it at the
point the cursor is consumed. -/
def dns_zone_step (primary : PrimaryStore) (z : String) (r : RemoteStore)
    (t : List Op) : RemoteStore × List Op :=
  let all_dns := (primary.all_dns.filter (fun d => d.doc.zone == z)).map StoredDoc.doc
  insert_all_dns_loop all_dns
    { r with all_dns := r.all_dns.filter (fun d => !(d.zone == z)) }
    (t ++ [Op.read "all_dns" (Query.byZone z) ReadPath.direct,
           Op.remove "all_dns" (Query.byZone z)])

/-- Outer loop of `update_all_dns`: `for zone in zone_list: ...`,
processing the zone names in list order. -/
def dns_zone_loop (primary : PrimaryStore) :
    List String → RemoteStore → List Op → RemoteStore × List Op
  | [], r, t => (r, t)
  | z :: rest, r, t =>
    let s := dns_zone_step primary z r t
    dns_zone_loop primary rest s.1 s.2

/-- Embedding of `update_all_dns(logger, mongo_connector, rm_connector, zone_list)`. -/
def update_all_dns (primary : PrimaryStore) (remote : RemoteStore)
    (zone_list : List String) : RemoteStore × List Op :=
  dns_zone_loop primary zone_list remote []

/-- The five CLI flags of `send_remote_server.py` (all `store_true`). -/
structure Args where
  send_zones : Bool
  send_ip_zones : Bool
  send_third_party_zones : Bool
  send_config : Bool
  send_dns_records : Bool
deriving DecidableEq, Repr

/-- Embedding of `send_all = (len(sys.argv) == 1)`: since argparse rejects unknown
tokens, the run proceeds with no CLI token exactly when no flag is set. -/
def send_all (a : Args) : Bool :=
  !(a.send_zones || a.send_ip_zones || a.send_third_party_zones
    || a.send_config || a.send_dns_records)

/-- The step sequence of `main()` after connector construction: zones
(always invoked, with `update_zone_list` true iff selected), then
ip zones, the four third-party CIDR steps, config, and DNS records, each
run when selected or when `send_all`.  Job lifecycle recording
(`JobsManager`) is external to the core and not modelled.  Returns the
final remote store, the concatenated operation trace, and the zone list. -/
def main_run (a : Args) (primary : PrimaryStore) (remote : RemoteStore) :
    RemoteStore × List Op × List String :=
  let z := if send_all a || a.send_zones
    then update_zones primary remote true
    else update_zones primary remote false
  let s2 := if send_all a || a.send_ip_zones
    then update_ip_zones primary z.1 else (z.1, [])
  let s3 := if send_all a || a.send_third_party_zones
    then
      let x1 := update_aws_cidrs primary s2.1
      let x2 := update_azure_cidrs primary x1.1
      let x3 := update_akamai_cidrs primary x2.1
      let x4 := update_gcp_cidrs primary x3.1
      (x4.1, x1.2 ++ x2.2 ++ x3.2 ++ x4.2)
    else (s2.1, [])
  let s4 := if send_all a || a.send_config
    then update_config primary s3.1 else (s3.1, [])
  let s5 := if send_all a || a.send_dns_records
    then update_all_dns primary s4.1 z.2.2 else (s4.1, [])
  (s5.1, z.2.1 ++ s2.2 ++ s3.2 ++ s4.2 ++ s5.2, z.2.2)

/-- Invoking with only `--send_dns_records` set. -/
def dnsOnlyArgs : Args :=
  { send_zones := false, send_ip_zones := false, send_third_party_zones := false,
    send_config := false, send_dns_records := true }

/- ### Characterization lemmas for the mirroring steps -/

theorem insert_zones_loop_eq (ds : List Doc) (r : RemoteStore) (t : List Op)
    (zl : List String) :
    insert_zones_loop ds r t zl
      = ({ r with zones := r.zones ++ ds }, t ++ ds.map (Op.insert "zones"),
         zl ++ ds.map Doc.zone) := by
  induction ds generalizing r t zl with
  | nil => simp [insert_zones_loop]
  | cons d rest ih => simp [insert_zones_loop, ih, List.append_assoc]

theorem zone_list_loop_eq (ds : List Doc) (zl : List String) :
    zone_list_loop ds zl = zl ++ ds.map Doc.zone := by
  induction ds generalizing zl with
  | nil => simp [zone_list_loop]
  | cons d rest ih => simp [zone_list_loop, ih, List.append_assoc]

theorem insert_ip_zones_loop_eq (ds : List Doc) (r : RemoteStore) (t : List Op) :
    insert_ip_zones_loop ds r t
      = ({ r with ip_zones := r.ip_zones ++ ds }, t ++ ds.map (Op.insert "ip_zones")) := by
  induction ds generalizing r t with
  | nil => simp [insert_ip_zones_loop]
  | cons d rest ih => simp [insert_ip_zones_loop, ih, List.append_assoc]

theorem insert_ipv6_zones_loop_eq (ds : List Doc) (r : RemoteStore) (t : List Op) :
    insert_ipv6_zones_loop ds r t
      = ({ r with ipv6_zones := r.ipv6_zones ++ ds }, t ++ ds.map (Op.insert "ipv6_zones")) := by
  induction ds generalizing r t with
  | nil => simp [insert_ipv6_zones_loop]
  | cons d rest ih => simp [insert_ipv6_zones_loop, ih, List.append_assoc]

theorem insert_config_loop_eq (ds : List Doc) (r : RemoteStore) (t : List Op) :
    insert_config_loop ds r t
      = ({ r with config := r.config ++ ds }, t ++ ds.map (Op.insert "config")) := by
  induction ds generalizing r t with
  | nil => simp [insert_config_loop]
  | cons d rest ih => simp [insert_config_loop, ih, List.append_assoc]

theorem insert_aws_loop_eq (ds : List Doc) (r : RemoteStore) (t : List Op) :
    insert_aws_loop ds r t
      = ({ r with aws_ips := r.aws_ips ++ ds }, t ++ ds.map (Op.insert "aws_ips")) := by
  induction ds generalizing r t with
  | nil => simp [insert_aws_loop]
  | cons d rest ih => simp [insert_aws_loop, ih, List.append_assoc]

theorem insert_azure_loop_eq (ds : List Doc) (r : RemoteStore) (t : List Op) :
    insert_azure_loop ds r t
      = ({ r with azure_ips := r.azure_ips ++ ds }, t ++ ds.map (Op.insert "azure_ips")) := by
  induction ds generalizing r t with
  | nil => simp [insert_azure_loop]
  | cons d rest ih => simp [insert_azure_loop, ih, List.append_assoc]

theorem insert_akamai_loop_eq (ds : List Doc) (r : RemoteStore) (t : List Op) :
    insert_akamai_loop ds r t
      = ({ r with akamai_ips := r.akamai_ips ++ ds }, t ++ ds.map (Op.insert "akamai_ips")) := by
  induction ds generalizing r t with
  | nil => simp [insert_akamai_loop]
  | cons d rest ih => simp [insert_akamai_loop, ih, List.append_assoc]

theorem insert_gcp_loop_eq (ds : List Doc) (r : RemoteStore) (t : List Op) :
    insert_gcp_loop ds r t
      = ({ r with gcp_ips := r.gcp_ips ++ ds }, t ++ ds.map (Op.insert "gcp_ips")) := by
  induction ds generalizing r t with
  | nil => simp [insert_gcp_loop]
  | cons d rest ih => simp [insert_gcp_loop, ih, List.append_assoc]

theorem insert_all_dns_loop_eq (ds : List Doc) (r : RemoteStore) (t : List Op) :
    insert_all_dns_loop ds r t
      = ({ r with all_dns := r.all_dns ++ ds }, t ++ ds.map (Op.insert "all_dns")) := by
  induction ds generalizing r t with
  | nil => simp [insert_all_dns_loop]
  | cons d rest ih => simp [insert_all_dns_loop, ih, List.append_assoc]

theorem update_zones_eq_true (primary : PrimaryStore) (remote : RemoteStore) :
    update_zones primary remote true
      = ({ remote with zones := primary.zones.map StoredDoc.doc },
         Op.read "zones" Query.all ReadPath.direct :: Op.remove "zones" Query.all
           :: (primary.zones.map StoredDoc.doc).map (Op.insert "zones"),
         (primary.zones.map StoredDoc.doc).map Doc.zone) := by
  simp [update_zones, insert_zones_loop_eq]

theorem update_zones_eq_false (primary : PrimaryStore) (remote : RemoteStore) :
    update_zones primary remote false
      = (remote, [Op.read "zones" Query.all ReadPath.direct],
         (primary.zones.map StoredDoc.doc).map Doc.zone) := by
  simp [update_zones, zone_list_loop_eq]

theorem update_ip_zones_eq (primary : PrimaryStore) (remote : RemoteStore) :
    update_ip_zones primary remote
      = ({ remote with ip_zones := primary.ip_zones.map StoredDoc.doc,
                       ipv6_zones := primary.ipv6_zones.map StoredDoc.doc },
         Op.read "ip_zones" Query.all ReadPath.direct :: Op.remove "ip_zones" Query.all
           :: (primary.ip_zones.map StoredDoc.doc).map (Op.insert "ip_zones")
           ++ Op.read "ipv6_zones" Query.all ReadPath.direct :: Op.remove "ipv6_zones" Query.all
           :: (primary.ipv6_zones.map StoredDoc.doc).map (Op.insert "ipv6_zones")) := by
  simp [update_ip_zones, insert_ip_zones_loop_eq, insert_ipv6_zones_loop_eq]

theorem update_config_eq (primary : PrimaryStore) (remote : RemoteStore) :
    update_config primary remote
      = ({ remote with config := primary.config.map StoredDoc.doc },
         Op.read "config" Query.all ReadPath.direct :: Op.remove "config" Query.all
           :: (primary.config.map StoredDoc.doc).map (Op.insert "config")) := by
  simp [update_config, insert_config_loop_eq]

theorem update_aws_cidrs_eq (primary : PrimaryStore) (remote : RemoteStore) :
    update_aws_cidrs primary remote
      = ({ remote with aws_ips := primary.aws_ips.map StoredDoc.doc },
         Op.read "aws_ips" Query.all ReadPath.direct :: Op.remove "aws_ips" Query.all
           :: (primary.aws_ips.map StoredDoc.doc).map (Op.insert "aws_ips")) := by
  simp [update_aws_cidrs, insert_aws_loop_eq]

theorem update_azure_cidrs_eq (primary : PrimaryStore) (remote : RemoteStore) :
    update_azure_cidrs primary remote
      = ({ remote with azure_ips := primary.azure_ips.map StoredDoc.doc },
         Op.read "azure_ips" Query.all ReadPath.direct :: Op.remove "azure_ips" Query.all
           :: (primary.azure_ips.map StoredDoc.doc).map (Op.insert "azure_ips")) := by
  simp [update_azure_cidrs, insert_azure_loop_eq]

theorem update_akamai_cidrs_eq (primary : PrimaryStore) (remote : RemoteStore) :
    update_akamai_cidrs primary remote
      = ({ remote with akamai_ips := primary.akamai_ips.map StoredDoc.doc },
         Op.read "akamai_ips" Query.all ReadPath.direct :: Op.remove "akamai_ips" Query.all
           :: (primary.akamai_ips.map StoredDoc.doc).map (Op.insert "akamai_ips")) := by
  simp [update_akamai_cidrs, insert_akamai_loop_eq]

theorem update_gcp_cidrs_eq (primary : PrimaryStore) (remote : RemoteStore) :
    update_gcp_cidrs primary remote
      = ({ remote with gcp_ips := primary.gcp_ips.map StoredDoc.doc },
         Op.read "gcp_ips" Query.all ReadPath.direct :: Op.remove "gcp_ips" Query.all
           :: (primary.gcp_ips.map StoredDoc.doc).map (Op.insert "gcp_ips")) := by
  simp [update_gcp_cidrs, insert_gcp_loop_eq]

theorem dns_zone_step_eq (primary : PrimaryStore) (z : String) (r : RemoteStore)
    (t : List Op) :
    dns_zone_step primary z r t
      = ({ r with all_dns := r.all_dns.filter (fun d => !(d.zone == z))
             ++ (primary.all_dns.filter (fun d => d.doc.zone == z)).map StoredDoc.doc },
         t ++ Op.read "all_dns" (Query.byZone z) ReadPath.direct
           :: Op.remove "all_dns" (Query.byZone z)
           :: ((primary.all_dns.filter (fun d => d.doc.zone == z)).map StoredDoc.doc).map
                (Op.insert "all_dns")) := by
  simp [dns_zone_step, insert_all_dns_loop_eq, List.append_assoc]

/- ### Sample stores for concrete witnesses and counterexamples -/

/-- A small concrete primary store. -/
def P0 : PrimaryStore :=
  { zones := [{ oid := 1, doc := { zone := "example.com", payload := "z1" } }],
    ip_zones := [{ oid := 2, doc := { zone := "", payload := "10.0.0.0/8" } }],
    ipv6_zones := [], config := [], aws_ips := [], azure_ips := [],
    akamai_ips := [], gcp_ips := [],
    all_dns := [{ oid := 10, doc := { zone := "example.com", payload := "A 1.2.3.4" } },
                { oid := 11, doc := { zone := "other.com", payload := "A 5.6.7.8" } }] }

/-- A small concrete remote store with stale content. -/
def R0 : RemoteStore :=
  { zones := [{ zone := "stale.com", payload := "old" }],
    ip_zones := [], ipv6_zones := [], config := [], aws_ips := [], azure_ips := [],
    akamai_ips := [], gcp_ips := [],
    all_dns := [{ zone := "example.com", payload := "stale" },
                { zone := "keep.com", payload := "x" }] }

/- ### C5, C7, C10: full-replace and DNS frame properties -/

/-- C5: each full-replace step (ip zones, ipv6 zones, config, and the four
per-provider CIDR collections) leaves the destination collection equal to
the source documents with the internal `_id` removed, irrespective of the
destination's prior content, and its trace is: one read of the source,
one unconditional delete of the whole destination collection, then one
insert per source document, in that order. -/
theorem c5_full_replace_correct (primary : PrimaryStore) (remote : RemoteStore) :
    (update_ip_zones primary remote).1.ip_zones = primary.ip_zones.map StoredDoc.doc
    ∧ (update_ip_zones primary remote).1.ipv6_zones = primary.ipv6_zones.map StoredDoc.doc
    ∧ (update_config primary remote).1.config = primary.config.map StoredDoc.doc
    ∧ (update_aws_cidrs primary remote).1.aws_ips = primary.aws_ips.map StoredDoc.doc
    ∧ (update_azure_cidrs primary remote).1.azure_ips = primary.azure_ips.map StoredDoc.doc
    ∧ (update_akamai_cidrs primary remote).1.akamai_ips = primary.akamai_ips.map StoredDoc.doc
    ∧ (update_gcp_cidrs primary remote).1.gcp_ips = primary.gcp_ips.map StoredDoc.doc
    ∧ (update_config primary remote).2
        = Op.read "config" Query.all ReadPath.direct :: Op.remove "config" Query.all
            :: (primary.config.map StoredDoc.doc).map (Op.insert "config")
    ∧ (update_aws_cidrs primary remote).2
        = Op.read "aws_ips" Query.all ReadPath.direct :: Op.remove "aws_ips" Query.all
            :: (primary.aws_ips.map StoredDoc.doc).map (Op.insert "aws_ips")
    ∧ (update_azure_cidrs primary remote).2
        = Op.read "azure_ips" Query.all ReadPath.direct :: Op.remove "azure_ips" Query.all
            :: (primary.azure_ips.map StoredDoc.doc).map (Op.insert "azure_ips")
    ∧ (update_akamai_cidrs primary remote).2
        = Op.read "akamai_ips" Query.all ReadPath.direct :: Op.remove "akamai_ips" Query.all
            :: (primary.akamai_ips.map StoredDoc.doc).map (Op.insert "akamai_ips")
    ∧ (update_gcp_cidrs primary remote).2
        = Op.read "gcp_ips" Query.all ReadPath.direct :: Op.remove "gcp_ips" Query.all
            :: (primary.gcp_ips.map StoredDoc.doc).map (Op.insert "gcp_ips")
    ∧ (update_ip_zones primary remote).2
        = Op.read "ip_zones" Query.all ReadPath.direct :: Op.remove "ip_zones" Query.all
            :: (primary.ip_zones.map StoredDoc.doc).map (Op.insert "ip_zones")
            ++ Op.read "ipv6_zones" Query.all ReadPath.direct :: Op.remove "ipv6_zones" Query.all
            :: (primary.ipv6_zones.map StoredDoc.doc).map (Op.insert "ipv6_zones") := by
  refine ⟨?_, ?_, ?_, ?_, ?_, ?_, ?_, ?_, ?_, ?_, ?_, ?_, ?_⟩ <;>
    simp [update_ip_zones_eq, update_config_eq, update_aws_cidrs_eq,
      update_azure_cidrs_eq, update_akamai_cidrs_eq, update_gcp_cidrs_eq]

/-- C7: running a full-replace step twice in a row against an unchanged
source yields the same destination store both times. -/
theorem c7_full_replace_idempotent (primary : PrimaryStore) (remote : RemoteStore) :
    (update_ip_zones primary (update_ip_zones primary remote).1).1
        = (update_ip_zones primary remote).1
    ∧ (update_config primary (update_config primary remote).1).1
        = (update_config primary remote).1
    ∧ (update_aws_cidrs primary (update_aws_cidrs primary remote).1).1
        = (update_aws_cidrs primary remote).1
    ∧ (update_azure_cidrs primary (update_azure_cidrs primary remote).1).1
        = (update_azure_cidrs primary remote).1
    ∧ (update_akamai_cidrs primary (update_akamai_cidrs primary remote).1).1
        = (update_akamai_cidrs primary remote).1
    ∧ (update_gcp_cidrs primary (update_gcp_cidrs primary remote).1).1
        = (update_gcp_cidrs primary remote).1 := by
  refine ⟨?_, ?_, ?_, ?_, ?_, ?_⟩ <;>
    simp [update_ip_zones_eq, update_config_eq, update_aws_cidrs_eq,
      update_azure_cidrs_eq, update_akamai_cidrs_eq, update_gcp_cidrs_eq]

/-- C10: with an empty zone list, the DNS mirroring step issues no store
operation at all and leaves the destination untouched. -/
theorem c10_empty_zone_list_dns_noop (primary : PrimaryStore) (remote : RemoteStore) :
    update_all_dns primary remote [] = (remote, []) := rfl

/- ### C3: zone-scoped DNS replication -/

/-- C3: for the DNS mirroring step, (1) after zone `z`'s sub-step the
destination documents with `zone == z` are exactly the primary documents
with `zone == z` read during the sub-step (without `_id`); (2) the
sub-step leaves documents of every other zone untouched; (3) the
sub-step's trace is: read zone `z`, delete only `zone == z` (never the
whole collection), then insert exactly the documents read; (4) the step
processes the zone list in order via the per-zone sub-step; (5) when zone
keys are unique (the zone list has no duplicates) no zone is revisited. -/
theorem c3_zone_scoped_dns (primary : PrimaryStore) (remote : RemoteStore)
    (zone_list : List String) (hnd : zone_list.Nodup) :
    (∀ z r t, (dns_zone_step primary z r t).1.all_dns.filter (fun d => d.zone == z)
        = (primary.all_dns.filter (fun d => d.doc.zone == z)).map StoredDoc.doc)
    ∧ (∀ z w r t, w ≠ z →
        (dns_zone_step primary z r t).1.all_dns.filter (fun d => d.zone == w)
          = r.all_dns.filter (fun d => d.zone == w))
    ∧ (∀ z r t, (dns_zone_step primary z r t).2
        = t ++ Op.read "all_dns" (Query.byZone z) ReadPath.direct
            :: Op.remove "all_dns" (Query.byZone z)
            :: ((primary.all_dns.filter (fun d => d.doc.zone == z)).map StoredDoc.doc).map
                 (Op.insert "all_dns"))
    ∧ update_all_dns primary remote zone_list = dns_zone_loop primary zone_list remote []
    ∧ (∀ z ∈ zone_list, zone_list.count z = 1) := by
  refine ⟨?_, ?_, ?_, rfl, ?_⟩
  · intro z r t
    rw [dns_zone_step_eq]
    simp only [List.filter_append]
    have h1 : (r.all_dns.filter (fun d => !(d.zone == z))).filter (fun d => d.zone == z)
        = [] := by
      rw [List.filter_filter]
      apply List.filter_eq_nil_iff.mpr
      intro d _
      cases hb : d.zone == z <;> simp [hb]
    have h2 : ((primary.all_dns.filter (fun d => d.doc.zone == z)).map StoredDoc.doc).filter
        (fun d => d.zone == z)
        = (primary.all_dns.filter (fun d => d.doc.zone == z)).map StoredDoc.doc := by
      apply List.filter_eq_self.mpr
      intro d hd
      rcases List.mem_map.mp hd with ⟨sd, hsd, rfl⟩
      exact (List.mem_filter.mp hsd).2
    rw [h1, h2, List.nil_append]
  · intro z w r t hw
    rw [dns_zone_step_eq]
    simp only [List.filter_append]
    have h1 : ((primary.all_dns.filter (fun d => d.doc.zone == z)).map StoredDoc.doc).filter
        (fun d => d.zone == w) = [] := by
      apply List.filter_eq_nil_iff.mpr
      intro d hd
      rcases List.mem_map.mp hd with ⟨sd, hsd, rfl⟩
      have hz : sd.doc.zone = z := by
        have := (List.mem_filter.mp hsd).2
        exact beq_iff_eq.mp this
      simp [hz, beq_eq_false_iff_ne.mpr (fun hc => hw hc.symm)]
    have h2 : (r.all_dns.filter (fun d => !(d.zone == z))).filter (fun d => d.zone == w)
        = r.all_dns.filter (fun d => d.zone == w) := by
      rw [List.filter_filter]
      apply List.filter_congr
      intro d _
      cases hb : d.zone == w
      · simp
      · have hd : d.zone = w := beq_iff_eq.mp hb
        simp [hd, beq_eq_false_iff_ne.mpr hw]
    rw [h1, h2, List.append_nil]
  · intro z r t
    rw [dns_zone_step_eq]
  · intro z hz
    exact List.count_eq_one_of_mem hnd hz

/-- C3 witness: the zone-scoped step evaluated on concrete stores; after
the `example.com` sub-step the destination `example.com` documents equal
the primary's, the `keep.com` document survives, and the singleton zone
list visits `example.com` exactly once. -/
theorem c3_zone_scoped_dns_witness :
    (dns_zone_step P0 "example.com" R0 []).1.all_dns.filter
        (fun d => d.zone == "example.com")
      = (P0.all_dns.filter (fun d => d.doc.zone == "example.com")).map StoredDoc.doc
    ∧ (dns_zone_step P0 "example.com" R0 []).1.all_dns
      = [{ zone := "keep.com", payload := "x" },
         { zone := "example.com", payload := "A 1.2.3.4" }]
    ∧ (["example.com"] : List String).count "example.com" = 1 := by
  have h := c3_zone_scoped_dns P0 R0 ["example.com"] (by decide)
  exact ⟨h.1 "example.com" R0 [], by decide, h.2.2.2.2 "example.com" (by decide)⟩

/- ### Trace structure lemmas for the whole run -/

theorem dns_zone_loop_trace_pred (primary : PrimaryStore) (P : Op → Prop)
    (hread : ∀ z, P (Op.read "all_dns" (Query.byZone z) ReadPath.direct))
    (hrem : ∀ z, P (Op.remove "all_dns" (Query.byZone z)))
    (hins : ∀ d, P (Op.insert "all_dns" d)) :
    ∀ (zs : List String) (r : RemoteStore) (t : List Op),
      (∀ op ∈ t, P op) → ∀ op ∈ (dns_zone_loop primary zs r t).2, P op := by
  intro zs
  induction zs with
  | nil => intro r t ht op hop; exact ht op hop
  | cons z rest ih =>
    intro r t ht op hop
    simp only [dns_zone_loop] at hop
    apply ih _ _ _ op hop
    intro o ho
    rw [dns_zone_step_eq] at ho
    rcases List.mem_append.mp ho with h | h
    · exact ht o h
    · rcases List.mem_cons.mp h with rfl | h
      · exact hread z
      · rcases List.mem_cons.mp h with rfl | h
        · exact hrem z
        · rcases List.mem_map.mp h with ⟨d, _, rfl⟩
          exact hins d

theorem dns_zone_loop_zones_frame (primary : PrimaryStore) :
    ∀ (zs : List String) (r : RemoteStore) (t : List Op),
      (dns_zone_loop primary zs r t).1.zones = r.zones := by
  intro zs
  induction zs with
  | nil => intro r t; rfl
  | cons z rest ih =>
    intro r t
    simp only [dns_zone_loop]
    rw [ih, dns_zone_step_eq]

theorem update_zones_trace_unwrapped (primary : PrimaryStore) (remote : RemoteStore)
    (b : Bool) : ∀ op ∈ (update_zones primary remote b).2.1, isWrappedRead op = false := by
  intro op hop
  rcases op with ⟨c, q, pa⟩ | ⟨c, q⟩ | ⟨c, d⟩
  · cases pa
    · rfl
    · cases b
      · rw [update_zones_eq_false] at hop; simp at hop
      · rw [update_zones_eq_true] at hop; simp at hop
  · rfl
  · rfl

theorem update_ip_zones_trace_unwrapped (primary : PrimaryStore) (remote : RemoteStore) :
    ∀ op ∈ (update_ip_zones primary remote).2, isWrappedRead op = false := by
  intro op hop
  rcases op with ⟨c, q, pa⟩ | ⟨c, q⟩ | ⟨c, d⟩
  · cases pa
    · rfl
    · rw [update_ip_zones_eq] at hop; simp at hop
  · rfl
  · rfl

theorem update_config_trace_unwrapped (primary : PrimaryStore) (remote : RemoteStore) :
    ∀ op ∈ (update_config primary remote).2, isWrappedRead op = false := by
  intro op hop
  rcases op with ⟨c, q, pa⟩ | ⟨c, q⟩ | ⟨c, d⟩
  · cases pa
    · rfl
    · rw [update_config_eq] at hop; simp at hop
  · rfl
  · rfl

theorem update_aws_trace_unwrapped (primary : PrimaryStore) (remote : RemoteStore) :
    ∀ op ∈ (update_aws_cidrs primary remote).2, isWrappedRead op = false := by
  intro op hop
  rcases op with ⟨c, q, pa⟩ | ⟨c, q⟩ | ⟨c, d⟩
  · cases pa
    · rfl
    · rw [update_aws_cidrs_eq] at hop; simp at hop
  · rfl
  · rfl

theorem update_azure_trace_unwrapped (primary : PrimaryStore) (remote : RemoteStore) :
    ∀ op ∈ (update_azure_cidrs primary remote).2, isWrappedRead op = false := by
  intro op hop
  rcases op with ⟨c, q, pa⟩ | ⟨c, q⟩ | ⟨c, d⟩
  · cases pa
    · rfl
    · rw [update_azure_cidrs_eq] at hop; simp at hop
  · rfl
  · rfl

theorem update_akamai_trace_unwrapped (primary : PrimaryStore) (remote : RemoteStore) :
    ∀ op ∈ (update_akamai_cidrs primary remote).2, isWrappedRead op = false := by
  intro op hop
  rcases op with ⟨c, q, pa⟩ | ⟨c, q⟩ | ⟨c, d⟩
  · cases pa
    · rfl
    · rw [update_akamai_cidrs_eq] at hop; simp at hop
  · rfl
  · rfl

theorem update_gcp_trace_unwrapped (primary : PrimaryStore) (remote : RemoteStore) :
    ∀ op ∈ (update_gcp_cidrs primary remote).2, isWrappedRead op = false := by
  intro op hop
  rcases op with ⟨c, q, pa⟩ | ⟨c, q⟩ | ⟨c, d⟩
  · cases pa
    · rfl
    · rw [update_gcp_cidrs_eq] at hop; simp at hop
  · rfl
  · rfl

theorem update_all_dns_trace_unwrapped (primary : PrimaryStore) (remote : RemoteStore)
    (zs : List String) : ∀ op ∈ (update_all_dns primary remote zs).2,
      isWrappedRead op = false := by
  apply dns_zone_loop_trace_pred primary (fun op => isWrappedRead op = false)
  · intro z; rfl
  · intro z; rfl
  · intro d; rfl
  · intro op hop; simp at hop

/-- C2 (counterexample): a concrete mirror run whose trace contains a read
of the primary performed directly on the collection handle, not through a
retry wrapper. -/
theorem c2_counterexample :
    Op.read "zones" Query.all ReadPath.direct ∈ (main_run dnsOnlyArgs P0 R0).2.1
    ∧ ReadPath.direct ≠ ReadPath.viaExecutor := by
  constructor
  · decide
  · decide

/-- C2 (amended): no read issued during a mirror run goes through the
retrying query executor: every operation in the run's trace, for every
flag combination and every store content, is either a write to the remote
or a direct collection-handle read, so no primary read is covered by the
bounded-retry policy. -/
theorem c2_all_primary_reads_direct (a : Args) (primary : PrimaryStore)
    (remote : RemoteStore) :
    ∀ op ∈ (main_run a primary remote).2.1, isWrappedRead op = false := by
  intro op hop
  simp only [main_run] at hop
  rcases List.mem_append.mp hop with h | h
  · rcases List.mem_append.mp h with h | h
    · rcases List.mem_append.mp h with h | h
      · rcases List.mem_append.mp h with h | h
        · split at h
          · exact update_zones_trace_unwrapped primary remote true op h
          · exact update_zones_trace_unwrapped primary remote false op h
        · split at h
          · exact update_ip_zones_trace_unwrapped primary _ op h
          · simp at h
      · split at h
        · rcases List.mem_append.mp h with h | h
          · rcases List.mem_append.mp h with h | h
            · rcases List.mem_append.mp h with h | h
              · exact update_aws_trace_unwrapped primary _ op h
              · exact update_azure_trace_unwrapped primary _ op h
            · exact update_akamai_trace_unwrapped primary _ op h
          · exact update_gcp_trace_unwrapped primary _ op h
        · simp at h
    · split at h
      · exact update_config_trace_unwrapped primary _ op h
      · simp at h
  · split at h
    · exact update_all_dns_trace_unwrapped primary _ _ op h
    · simp at h

/- ### Helper lemmas for C6 -/

theorem ite_update_zones (primary : PrimaryStore) (remote : RemoteStore) (c : Bool) :
    (if c = true then update_zones primary remote true
     else update_zones primary remote false) = update_zones primary remote c := by
  cases c <;> simp

theorem update_zones_zone_list (primary : PrimaryStore) (remote : RemoteStore) (b : Bool) :
    (update_zones primary remote b).2.2 = primary.zones.map (fun d => d.doc.zone) := by
  cases b <;>
    simp [update_zones_eq_true, update_zones_eq_false, List.map_map, Function.comp]

theorem update_zones_trace_head (primary : PrimaryStore) (remote : RemoteStore) (b : Bool) :
    ∃ t0, (update_zones primary remote b).2.1
      = Op.read "zones" Query.all ReadPath.direct :: t0 := by
  cases b
  · exact ⟨_, by rw [update_zones_eq_false]⟩
  · exact ⟨_, by rw [update_zones_eq_true]⟩

theorem update_zones_countP_zones_read (primary : PrimaryStore) (remote : RemoteStore)
    (b : Bool) : List.countP isZonesRead (update_zones primary remote b).2.1 = 1 := by
  cases b
  · simp [update_zones_eq_false, isZonesRead]
  · simp [update_zones_eq_true, List.countP_cons, List.countP_map, isZonesRead,
      Function.comp]

theorem update_ip_zones_no_zones_read (primary : PrimaryStore) (remote : RemoteStore) :
    ∀ op ∈ (update_ip_zones primary remote).2, isZonesRead op = false := by
  intro op hop
  rw [update_ip_zones_eq] at hop
  simp only [List.mem_append, List.mem_cons, List.mem_map] at hop
  rcases hop with (rfl | rfl | ⟨d, _, rfl⟩) | (rfl | rfl | ⟨d, _, rfl⟩) <;> rfl

theorem update_config_no_zones_read (primary : PrimaryStore) (remote : RemoteStore) :
    ∀ op ∈ (update_config primary remote).2, isZonesRead op = false := by
  intro op hop
  rw [update_config_eq] at hop
  simp only [List.mem_cons, List.mem_map] at hop
  rcases hop with rfl | rfl | ⟨d, _, rfl⟩ <;> rfl

theorem update_aws_no_zones_read (primary : PrimaryStore) (remote : RemoteStore) :
    ∀ op ∈ (update_aws_cidrs primary remote).2, isZonesRead op = false := by
  intro op hop
  rw [update_aws_cidrs_eq] at hop
  simp only [List.mem_cons, List.mem_map] at hop
  rcases hop with rfl | rfl | ⟨d, _, rfl⟩ <;> rfl

theorem update_azure_no_zones_read (primary : PrimaryStore) (remote : RemoteStore) :
    ∀ op ∈ (update_azure_cidrs primary remote).2, isZonesRead op = false := by
  intro op hop
  rw [update_azure_cidrs_eq] at hop
  simp only [List.mem_cons, List.mem_map] at hop
  rcases hop with rfl | rfl | ⟨d, _, rfl⟩ <;> rfl

theorem update_akamai_no_zones_read (primary : PrimaryStore) (remote : RemoteStore) :
    ∀ op ∈ (update_akamai_cidrs primary remote).2, isZonesRead op = false := by
  intro op hop
  rw [update_akamai_cidrs_eq] at hop
  simp only [List.mem_cons, List.mem_map] at hop
  rcases hop with rfl | rfl | ⟨d, _, rfl⟩ <;> rfl

theorem update_gcp_no_zones_read (primary : PrimaryStore) (remote : RemoteStore) :
    ∀ op ∈ (update_gcp_cidrs primary remote).2, isZonesRead op = false := by
  intro op hop
  rw [update_gcp_cidrs_eq] at hop
  simp only [List.mem_cons, List.mem_map] at hop
  rcases hop with rfl | rfl | ⟨d, _, rfl⟩ <;> rfl

theorem update_all_dns_no_zones_read (primary : PrimaryStore) (remote : RemoteStore)
    (zs : List String) :
    ∀ op ∈ (update_all_dns primary remote zs).2, isZonesRead op = false := by
  apply dns_zone_loop_trace_pred primary (fun op => isZonesRead op = false)
  · intro z; rfl
  · intro z; rfl
  · intro d; rfl
  · intro op hop; simp at hop

theorem update_all_dns_no_zones_mutation (primary : PrimaryStore) (remote : RemoteStore)
    (zs : List String) :
    ∀ op ∈ (update_all_dns primary remote zs).2, mutatesZones op = false := by
  apply dns_zone_loop_trace_pred primary (fun op => mutatesZones op = false)
  · intro z; rfl
  · intro z; rfl
  · intro d; rfl
  · intro op hop; simp at hop

theorem countP_update_ip_zones (primary : PrimaryStore) (remote : RemoteStore) :
    List.countP isZonesRead (update_ip_zones primary remote).2 = 0 :=
  List.countP_eq_zero.mpr
    (fun op hop => by simp [update_ip_zones_no_zones_read primary remote op hop])

theorem countP_update_config (primary : PrimaryStore) (remote : RemoteStore) :
    List.countP isZonesRead (update_config primary remote).2 = 0 :=
  List.countP_eq_zero.mpr
    (fun op hop => by simp [update_config_no_zones_read primary remote op hop])

theorem countP_update_aws (primary : PrimaryStore) (remote : RemoteStore) :
    List.countP isZonesRead (update_aws_cidrs primary remote).2 = 0 :=
  List.countP_eq_zero.mpr
    (fun op hop => by simp [update_aws_no_zones_read primary remote op hop])

theorem countP_update_azure (primary : PrimaryStore) (remote : RemoteStore) :
    List.countP isZonesRead (update_azure_cidrs primary remote).2 = 0 :=
  List.countP_eq_zero.mpr
    (fun op hop => by simp [update_azure_no_zones_read primary remote op hop])

theorem countP_update_akamai (primary : PrimaryStore) (remote : RemoteStore) :
    List.countP isZonesRead (update_akamai_cidrs primary remote).2 = 0 :=
  List.countP_eq_zero.mpr
    (fun op hop => by simp [update_akamai_no_zones_read primary remote op hop])

theorem countP_update_gcp (primary : PrimaryStore) (remote : RemoteStore) :
    List.countP isZonesRead (update_gcp_cidrs primary remote).2 = 0 :=
  List.countP_eq_zero.mpr
    (fun op hop => by simp [update_gcp_no_zones_read primary remote op hop])

theorem countP_update_all_dns (primary : PrimaryStore) (remote : RemoteStore)
    (zs : List String) :
    List.countP isZonesRead (update_all_dns primary remote zs).2 = 0 :=
  List.countP_eq_zero.mpr
    (fun op hop => by simp [update_all_dns_no_zones_read primary remote zs op hop])

/-- C6: in every mirror run, the zone list is computed from the primary
Zone collection (it equals the primary zone keys), the very first
operation of the run is the single read of the Zone collection — so it
happens before any DNS document is read or written — and no second read
of the Zone collection ever occurs; moreover, under a DNS-only invocation
(`--send_dns_records` alone) the destination Zone collection receives no
delete and no insert and is left unchanged. -/
theorem c6_zone_list_once (a : Args) (primary : PrimaryStore) (remote : RemoteStore) :
    (main_run a primary remote).2.2 = primary.zones.map (fun d => d.doc.zone)
    ∧ (main_run a primary remote).2.1.head?
        = some (Op.read "zones" Query.all ReadPath.direct)
    ∧ List.countP isZonesRead (main_run a primary remote).2.1 = 1
    ∧ (main_run dnsOnlyArgs primary remote).1.zones = remote.zones
    ∧ (∀ op ∈ (main_run dnsOnlyArgs primary remote).2.1, mutatesZones op = false) := by
  refine ⟨?_, ?_, ?_, ?_, ?_⟩
  · simp only [main_run, ite_update_zones]
    exact update_zones_zone_list primary remote _
  · simp only [main_run, ite_update_zones]
    obtain ⟨t0, ht⟩ := update_zones_trace_head primary remote
      (send_all a || a.send_zones)
    rw [ht]
    simp [List.cons_append]
  · simp only [main_run, ite_update_zones, List.countP_append]
    rw [update_zones_countP_zones_read]
    split <;> split <;> split <;> split <;>
      simp [countP_update_ip_zones, countP_update_config, countP_update_aws,
        countP_update_azure, countP_update_akamai, countP_update_gcp,
        countP_update_all_dns, List.countP_append]
  · simp only [main_run, dnsOnlyArgs, send_all]
    simp [update_zones_eq_false, update_all_dns]
    exact dns_zone_loop_zones_frame primary _ remote []
  · intro op hop
    simp only [main_run, dnsOnlyArgs, send_all] at hop
    simp [update_zones_eq_false] at hop
    rcases hop with rfl | hop
    · rfl
    · exact update_all_dns_no_zones_mutation primary remote _ op hop

/- ### Configuration handling (RemoteMongoConnector._get_config_setting,
_init_mongo_connection, __init__) -/

/-- A parsed `connector.config`: sections, each a list of key/value pairs. -/
def ConfigData := List (String × List (String × String))

/-- Error kinds at config lookup: the three `configparser` error shapes the
source catches (`NoSectionError`, `NoOptionError`, and any other
`configparser.Error` such as interpolation failures), plus Python's
`ValueError` raised by `getboolean` on a non-boolean value, which is NOT
a `configparser.Error`. -/
inductive CPErr where
  | noSection
  | noOption
  | interpolation
  | valueError
deriving DecidableEq, Repr

/-- Which error kinds are subclasses of `configparser.Error`, i.e. caught
by the three `except` clauses of `_get_config_setting`. -/
def isConfigparserError : CPErr → Bool
  | CPErr.valueError => false
  | _ => true

/-- Section lookup inside the parsed config. -/
def findSection (cfg : ConfigData) (sec : String) : Option (List (String × String)) :=
  (cfg.find? (fun p => p.1 == sec)).map (fun p => p.2)

/-- Embedding of `config.get(section, key)`. -/
def config_get (cfg : ConfigData) (sec key : String) : Except CPErr String :=
  match findSection cfg sec with
  | none => Except.error CPErr.noSection
  | some kvs =>
    match kvs.find? (fun p => p.1 == key) with
    | none => Except.error CPErr.noOption
    | some p => Except.ok p.2

/-- Embedding of `configparser._convert_to_boolean`: accepts (case-insensitively)
1/yes/true/on and 0/no/false/off, raising `ValueError` otherwise. -/
def _convert_to_boolean (v : String) : Except CPErr Bool :=
  let lv := v.toLower
  if lv == "1" || lv == "yes" || lv == "true" || lv == "on" then Except.ok true
  else if lv == "0" || lv == "no" || lv == "false" || lv == "off" then Except.ok false
  else Except.error CPErr.valueError

/-- Embedding of `config.getboolean(section, key)`. -/
def config_getboolean (cfg : ConfigData) (sec key : String) : Except CPErr Bool :=
  match config_get cfg sec key with
  | Except.error e => Except.error e
  | Except.ok v => _convert_to_boolean v

/-- A Python value returned by `_get_config_setting`: a string, a bool
from `getboolean`, or the int `0` returned as the boolean-typed default. -/
inductive PyVal where
  | s (v : String)
  | b (v : Bool)
  | i (v : Nat)
deriving DecidableEq, Repr

/-- Embedding of `RemoteMongoConnector._get_config_setting(config, section, key, type)`:
calls `config.getboolean` when `type == 'boolean'` and `config.get`
otherwise; catches every `configparser.Error`, returning `0` (boolean) or
`""` (string) with a printed warning; any other exception (`ValueError`
from `getboolean`) propagates. -/
def _get_config_setting (cfg : ConfigData) (sec key : String)
    (type : String) : Except CPErr PyVal :=
  let raw : Except CPErr PyVal :=
    if type == "boolean" then (config_getboolean cfg sec key).map PyVal.b
    else (config_get cfg sec key).map PyVal.s
  match raw with
  | Except.ok v => Except.ok v
  | Except.error e =>
    if isConfigparserError e then
      if type == "boolean" then Except.ok (PyVal.i 0) else Except.ok (PyVal.s "")
    else Except.error e

/-- The string produced by a default-typed (`'str'`) call to
`_get_config_setting`, as used six times by `_init_mongo_connection`.
The string path never raises (`config.get` only produces
`configparser` errors, which are all caught), so the catch-all arm is
unreachable. -/
def strSetting (cfg : ConfigData) (sec key : String) : String :=
  match _get_config_setting cfg sec key "str" with
  | Except.ok (PyVal.s v) => v
  | _ => ""

/-- The observable arguments of the `MongoClient(...)` call made by
`_init_mongo_connection`. -/
structure MongoClientCall where
  connection_string : String
  ssl : Bool
  ssl_ca_certs : String
deriving DecidableEq, Repr

/-- Embedding of `RemoteMongoConnector._init_mongo_connection(config)`: reads the six
`RemoteMongoDB` settings, assembles the connection string (credentials
included only when both username and password are nonempty), passes the
CA certificate when nonempty, and selects the database `path[1:]`. -/
def _init_mongo_connection (cfg : ConfigData) : MongoClientCall × String :=
  let protocol := strSetting cfg "RemoteMongoDB" "mongo.protocol"
  let endpoint := strSetting cfg "RemoteMongoDB" "mongo.host"
  let path := strSetting cfg "RemoteMongoDB" "mongo.path"
  let username := strSetting cfg "RemoteMongoDB" "mongo.username"
  let password := strSetting cfg "RemoteMongoDB" "mongo.password"
  let cacert := strSetting cfg "RemoteMongoDB" "mongo.ca_cert"
  let connection_string :=
    if username != "" && password != "" then
      protocol ++ username ++ ":" ++ password ++ "@" ++ endpoint ++ path
    else protocol ++ endpoint ++ path
  let client : MongoClientCall :=
    if cacert != "" then
      { connection_string := connection_string, ssl := true, ssl_ca_certs := cacert }
    else
      { connection_string := connection_string, ssl := false, ssl_ca_certs := "" }
  (client, path.drop 1)

/-- Outcome of `RemoteMongoConnector.__init__`: a process exit (before any
connection is attempted), or a connection with the given client call and
database name. -/
inductive InitResult where
  | exited (code : Nat)
  | connected (client : MongoClientCall) (dbName : String)
deriving DecidableEq, Repr

/-- Embedding of `RemoteMongoConnector.__init__`: `config.read` returns the list of
files successfully read (`files_read`); if it is empty the constructor
prints an error and calls `exit(0)`, otherwise it proceeds to
`_init_mongo_connection`. -/
def remoteMongoConnectorInit (files_read : List String) (cfg : ConfigData) :
    InitResult :=
  if files_read.length == 0 then InitResult.exited 0
  else
    let c := _init_mongo_connection cfg
    InitResult.connected c.1 c.2

/- ### C8 and C9: constructor exit and lookup defaults -/

/-- C8 (counterexample): with the config file missing (no file read), the
constructor terminates the process, but the exit status is 0, not
nonzero. -/
theorem c8_counterexample :
    remoteMongoConnectorInit [] [] = InitResult.exited 0
    ∧ ∀ code, remoteMongoConnectorInit [] [] = InitResult.exited code → code = 0 := by
  refine ⟨rfl, ?_⟩
  intro code h
  rw [show remoteMongoConnectorInit [] [] = InitResult.exited 0 from rfl] at h
  injection h with hh
  exact hh.symm

/-- C8 (amended): if the configuration file is missing or unreadable
(`config.read` returns no file), the constructor terminates the process
before any store connection is attempted — the result is never the
`connected` outcome — but the termination is `exit(0)`, an exit status of
0 rather than a nonzero one. -/
theorem c8_missing_config_exits_zero (cfg : ConfigData) :
    remoteMongoConnectorInit [] cfg = InitResult.exited 0
    ∧ ∀ client dbName,
        remoteMongoConnectorInit [] cfg ≠ InitResult.connected client dbName := by
  refine ⟨rfl, ?_⟩
  intro client dbName h
  rw [show remoteMongoConnectorInit [] cfg = InitResult.exited 0 from rfl] at h
  exact InitResult.noConfusion h

theorem config_get_error_caught (cfg : ConfigData) (sec key : String) (e : CPErr)
    (hg : config_get cfg sec key = Except.error e) :
    isConfigparserError e = true := by
  rcases hfs : findSection cfg sec with _ | kvs
  · simp [config_get, hfs] at hg
    subst hg
    rfl
  · rcases hfind : kvs.find? (fun p => p.1 == key) with _ | p
    · simp [config_get, hfs, hfind] at hg
      subst hg
      rfl
    · simp [config_get, hfs, hfind] at hg

theorem strSetting_of_no_section (cfg : ConfigData) (sec key : String)
    (h : findSection cfg sec = none) : strSetting cfg sec key = "" := by
  have hg : config_get cfg sec key = Except.error CPErr.noSection := by
    simp [config_get, h]
  simp [strSetting, _get_config_setting, hg, isConfigparserError, Except.map]

/-- C9: when the config file is readable but the requested section or key
is absent (or the lookup fails with any other `configparser` error), the
lookup does not abort: the string-typed lookup returns `""` and the
boolean-typed lookup returns the int `0`; consequently, when the whole
`RemoteMongoDB` section is missing, `_init_mongo_connection` silently
assembles its connection string from empty components — producing the
empty connection string with no TLS — instead of failing. -/
theorem c9_config_lookup_defaults (cfg : ConfigData) (sec key : String) (e : CPErr)
    (hg : config_get cfg sec key = Except.error e)
    (hr : findSection cfg "RemoteMongoDB" = none) :
    _get_config_setting cfg sec key "str" = Except.ok (PyVal.s "")
    ∧ _get_config_setting cfg sec key "boolean" = Except.ok (PyVal.i 0)
    ∧ (_init_mongo_connection cfg).1
        = { connection_string := "", ssl := false, ssl_ca_certs := "" } := by
  have hcaught := config_get_error_caught cfg sec key e hg
  refine ⟨?_, ?_, ?_⟩
  · simp [_get_config_setting, hg, hcaught, Except.map]
  · have hb : config_getboolean cfg sec key = Except.error e := by
      simp [config_getboolean, hg]
    simp [_get_config_setting, hb, hcaught, Except.map]
  · have hs : ∀ k, strSetting cfg "RemoteMongoDB" k = "" :=
      fun k => strSetting_of_no_section cfg "RemoteMongoDB" k hr
    simp [_init_mongo_connection, hs]

/-- C9 witness: the empty config file exercises the defaults and the
empty connection string. -/
theorem c9_config_lookup_defaults_witness :
    _get_config_setting [] "RemoteMongoDB" "mongo.host" "str" = Except.ok (PyVal.s "")
    ∧ _get_config_setting [] "RemoteMongoDB" "mongo.host" "boolean"
        = Except.ok (PyVal.i 0)
    ∧ (_init_mongo_connection []).1
        = { connection_string := "", ssl := false, ssl_ca_certs := "" } :=
  c9_config_lookup_defaults [] "RemoteMongoDB" "mongo.host" CPErr.noSection rfl rfl

/-- C2 amended witness: a concrete run in which the zones read — present
in the trace — is direct. -/
theorem c2_all_primary_reads_direct_witness :
    isWrappedRead (Op.read "zones" Query.all ReadPath.direct) = false :=
  c2_all_primary_reads_direct dnsOnlyArgs P0 R0
    (Op.read "zones" Query.all ReadPath.direct) (by decide)

/-- C6 witness: concrete run evaluating the zone list and the untouched
destination zones collection. -/
theorem c6_zone_list_once_witness :
    (main_run dnsOnlyArgs P0 R0).2.2 = P0.zones.map (fun d => d.doc.zone)
    ∧ (main_run dnsOnlyArgs P0 R0).1.zones = R0.zones :=
  ⟨(c6_zone_list_once dnsOnlyArgs P0 R0).1,
   (c6_zone_list_once dnsOnlyArgs P0 R0).2.2.2.1⟩

/-- C8 amended witness: the missing-config exit evaluated on the empty
config. -/
theorem c8_missing_config_exits_zero_witness :
    remoteMongoConnectorInit [] [] = InitResult.exited 0 :=
  (c8_missing_config_exits_zero []).1
